import Mathlib

/-!
Verification development for the MoriAI storybook/TTS services.

The definitions below are a shallow embedding of the Python sources:

* src/tts/src/tts_generator.py        (TtsGenerator: generate_batch, generate_word)
* src/tts/features/word_tts/service.py (WordTTSService: validate_word, generate_word)
* src/storybook/services.py           (BookService: create_book_with_tts and helpers)
* src/storybook/storage/local_storage.py (LocalStorageService)

External effects (the ElevenLabs speech API, the GenAI image/video models, the
HTTP TTS call, wall-clock time) are passed in as explicit oracle parameters,
and the file system is threaded as explicit state.  Machine-level details that
no modelled claim depends on (actual audio bytes, logging) are elided.
-/

namespace MoriAI

/-! ## Batch Speech Engine: TtsGenerator.generate_batch

generate_batch flattens the nested text list while recording each group's
length, issues one synthesis call per flattened item (a failed call is
recorded as a null entry), and re-splits the flat result list according to
the recorded lengths.  The outcome of the i-th flattened remote call is
supplied by the oracle callResult (none models the call raising). -/

/-- Result record of generate_batch: the fresh batch UUID and the reshaped
nested list of per-item path results (none marks a failed item). -/
structure BatchResult where
  batch_id : String
  paths : List (List (Option String))
deriving DecidableEq, Repr

/-- Step 1 of generate_batch: flat_texts accumulated by extending with each
group, i.e. the concatenation of the groups. -/
def flattenTexts (texts : List (List String)) : List String :=
  texts.flatten

/-- Step 1 of generate_batch: the structure list, holding each group's
length. -/
def structureOf (texts : List (List String)) : List Nat :=
  texts.map List.length

/-- Step 4 of generate_batch: re-split the flat result list into groups of
the recorded sizes (flat_paths[start : start + size] with a running start
index is the same as take/drop). -/
def splitByStructure : List Nat → List (Option String) → List (List (Option String))
  | [], _ => []
  | n :: rest, flat => flat.take n :: splitByStructure rest (flat.drop n)

/-- TtsGenerator.generate_batch.  batch_uuid stands for the freshly drawn
uuid4; callResult i is the settled outcome of the i-th flattened synthesis
task (none when that task raised, mirroring return_exceptions=True followed
by the None substitution). -/
def generate_batch (batch_uuid : String) (texts : List (List String))
    (callResult : Nat → Option String) : BatchResult :=
  let flat_texts := flattenTexts texts
  let flat_paths := (List.range flat_texts.length).map callResult
  { batch_id := batch_uuid
    paths := splitByStructure (structureOf texts) flat_paths }

/-! ## Word TTS: validation, cache path, cached generation -/

/-- Python str.removeprefix: drop the prefix when present, else unchanged. -/
def stripLeading (p s : String) : String :=
  if p.isPrefixOf s then s.drop p.length else s

/-- The path-control characters blocked by the word validators.  The Python
list also contains the two-character string "..", whose substring test is
subsumed by the test for the single character dot. -/
def pathControlChars : List Char := ['.', '/', '\\']

/-- ASCII whitespace as stripped by Python str.strip (the rarely used
non-ASCII Unicode space code points are elided). -/
def pyWhitespace : List Char := [' ', '\t', '\n', '\r', '\x0b', '\x0c']

/-- A word is blank exactly when word.strip() is falsy, i.e. every character
is whitespace (this also covers the empty word). -/
def isBlankWord (word : String) : Bool :=
  word.data.all (fun c => c ∈ pyWhitespace)

/-- The three ValueError cases of WordTTSService.validate_word. -/
inductive ValidationError where
  | tooLong
  | emptyWord
  | pathChar
deriving DecidableEq, Repr

/-- True when some character of the word is a path-control character. -/
def hasPathControlChar (word : String) : Bool :=
  word.data.any (fun c => c ∈ pathControlChars)

/-- WordTTSService.validate_word: length over 50, then blank, then
path-control characters, in that order; none means the word is accepted. -/
def validate_word (word : String) : Option ValidationError :=
  if 50 < word.length then some ValidationError.tooLong
  else if isBlankWord word then some ValidationError.emptyWord
  else if hasPathControlChar word then some ValidationError.pathChar
  else none

/-- The word cache directory, output_dir / "word" with the default
TTS_OUTPUT_DIR of /app/data/sound (WordTTSService.word_dir spells out the
same literal). -/
def wordDirStr : String := "/app/data/sound/word"

/-- pathlib joining of a directory with one further segment: a segment that
begins with the separator is absolute and replaces the base, otherwise it is
appended after a separator. -/
def posixJoin (base seg : String) : String :=
  if seg.data.head? = some '/' then seg else base ++ "/" ++ seg

/-- The per-word cache file path word_dir / (word ++ ".mp3"), used by
TtsGenerator.generate_word both for the existence check and for the file
write, and by WordTTSService.is_cached. -/
def word_file_path (word : String) : String :=
  posixJoin wordDirStr (word ++ ".mp3")

/-- State of the word-TTS part of the world: the set of files present on
disk (as path strings) and how many remote synthesis calls have been
issued. -/
structure WordState where
  files : List String
  synthCount : Nat
deriving DecidableEq, Repr

/-- TtsGenerator.generate_word: build the cache file path; if the file
exists return its path with the /app prefix stripped (no synthesis);
otherwise perform one remote synthesis call (synthOk tells whether it
succeeds), write the file on success, or propagate the failure (none). -/
def tts_generate_word (st : WordState) (word : String) (synthOk : Bool) :
    Option String × WordState :=
  let file_path := word_file_path word
  if file_path ∈ st.files then
    (some (stripLeading ("/app") file_path), st)
  else
    let st1 : WordState := { st with synthCount := st.synthCount + 1 }
    if synthOk then
      (some (stripLeading ("/app") file_path), { st1 with files := file_path :: st1.files })
    else
      (none, st1)

/-- The response record of WordTTSService.generate_word. -/
structure WordTTSResult where
  word : String
  file_path : String
  cached : Bool
  duration_ms : Option Nat
deriving DecidableEq, Repr

/-- Possible outcomes of one WordTTSService.generate_word call: a ValueError
from validation, a propagated synthesis failure, or a result record. -/
inductive WordCallResult where
  | invalid (e : ValidationError)
  | genFailure
  | ok (r : WordTTSResult)
deriving DecidableEq, Repr

/-- WordTTSService.generate_word: validate, record is_cached (the existence
check at the deterministic per-word key), delegate to the generator, and
report duration_ms as none exactly when the word was cached (elapsed is the
measured wall-clock duration, supplied externally). -/
def service_generate_word (st : WordState) (word : String) (synthOk : Bool)
    (elapsed : Nat) : WordCallResult × WordState :=
  match validate_word word with
  | some e => (WordCallResult.invalid e, st)
  | none =>
    let is_cached := word_file_path word ∈ st.files
    match tts_generate_word st word synthOk with
    | (none, st1) => (WordCallResult.genFailure, st1)
    | (some result_path, st1) =>
      (WordCallResult.ok
        { word := word
          file_path := result_path
          cached := is_cached
          duration_ms := if is_cached then none else some elapsed }, st1)

/-! ## Storybook data model

The module storybook/models.py is not part of the provided sources; the
record types below are reconstructed from the specification's data model
section and from every constructor call in storybook/services.py. -/

/-- Modelled from the spec: the Dialogue record of models.py (absent from
the sources) — a 1-based index, the spoken text, and the audio reference,
empty when synthesis failed for that line. -/
structure Dialogue where
  index : Nat
  text : String
  part_audio_url : String
deriving DecidableEq, Repr

/-- Modelled from the spec: the Page record of models.py (absent from the
sources) — 1-based index, modality tag (the string image or video), primary
content reference, fallback image reference, and dialogue list.  Python
sites that produce a None reference are modelled with the empty string,
which every consuming truthiness test treats identically. -/
structure Page where
  index : Nat
  type : String
  content : String
  fallback_image : String
  dialogues : List Dialogue
deriving DecidableEq, Repr

/-- Modelled from the spec: the Book record of models.py (absent from the
sources) — id, title, cover reference, lifecycle status (process, success or
error) and the page list. -/
structure Book where
  id : String
  title : String
  cover_image : String
  status : String
  pages : List Page
deriving DecidableEq, Repr

/-! ## Local storage (LocalStorageService)

Assets are modelled as (book_id, filename) pairs held in two lists, one per
media directory.  The URL string /data/{mediaType}/{bookId}/{filename} used
by the Python layer is a bijective rendering of that triple for the
slash-free names the orchestrator produces, so existence and deletion are
stated directly on the triples. -/

/-- The image and video directories of LocalStorageService, each holding
(book_id, filename) entries. -/
structure StorageState where
  images : List (String × String)
  videos : List (String × String)
deriving DecidableEq, Repr

/-- LocalStorageService.upload_file: add the file under the directory
selected by media_type (the orchestrator only passes image or video; any
other type raises in the source and is modelled as a no-op here because no
modelled run reaches it). -/
def uploadAsset (st : StorageState) (media_type book_id filename : String) :
    StorageState :=
  if media_type = "image" then
    { st with images := st.images ++ [(book_id, filename)] }
  else if media_type = "video" then
    { st with videos := st.videos ++ [(book_id, filename)] }
  else st

/-- LocalStorageService.file_exists for a URL naming book_id/filename under
the media_type directory. -/
def file_exists (st : StorageState) (media_type book_id filename : String) :
    Bool :=
  if media_type = "image" then decide ((book_id, filename) ∈ st.images)
  else if media_type = "video" then decide ((book_id, filename) ∈ st.videos)
  else false

/-- LocalStorageService.delete_book_directory: rmtree of
image_data_dir / book_id — it removes every image entry of that book and
reports whether the directory was there (approximated by the presence of at
least one such entry); the video directory is not touched. -/
def delete_book_directory (st : StorageState) (book_id : String) :
    StorageState × Bool :=
  if st.images.any (fun e => decide (e.1 = book_id)) then
    ({ st with images := st.images.filter (fun e => decide (e.1 ≠ book_id)) }, true)
  else
    (st, false)

/-! ## TTS audio normalization (BookService._generate_tts_audio)

The remote TTS HTTP call is an oracle: none stands for any of the caught
transport, HTTP-status, timeout or unexpected exceptions (all of which
return the all-null shape), and some paths stands for a 2xx JSON body whose
paths field decoded to the given value.  A page entry of the decoded paths
is none when it is not a list, and each item of a page is none for JSON
null; the outer Option String carries the item strings. -/

/-- One page entry of the decoded paths field: none when the entry is not a
list, else its items (none for null items). -/
abbrev RawTtsPage := Option (List (Option String))

/-- Per-page URL extraction loop of _generate_tts_audio: truthy items get
the /app prefix stripped, falsy items (null or the empty string) become
None; a non-list page entry becomes [None] * len(dialogs[page_idx]) when
that page exists, else []. -/
def normalizePage (dialogs : List (List String)) (page_idx : Nat)
    (entry : RawTtsPage) : List (Option String) :=
  match entry with
  | some page_paths =>
    page_paths.map (fun u =>
      match u with
      | some s => if s = "" then none else some (stripLeading ("/app") s)
      | none => none)
  | none =>
    match dialogs[page_idx]? with
    | some page_dialogs => List.replicate page_dialogs.length none
    | none => []

/-- Page-count fixup of _generate_tts_audio: while the result has fewer
pages than dialogs, append [None] * len(dialogs[len(result)]). -/
def padPages (dialogs : List (List String))
    (urls : List (List (Option String))) : List (List (Option String)) :=
  urls ++ (dialogs.drop urls.length).map (fun page => List.replicate page.length none)

/-- Per-page dialog-count fixup of _generate_tts_audio: pad a short page
with None up to the expected count, truncate a long one. -/
def fixPage (expected : List String) (actual : List (Option String)) :
    List (Option String) :=
  if actual.length < expected.length then
    actual ++ List.replicate (expected.length - actual.length) none
  else
    actual.take expected.length

/-- The zip(dialogs, audio_urls) pass applying fixPage to the first
len(dialogs) pages; later pages are left as they are. -/
def fixPages (dialogs : List (List String))
    (urls : List (List (Option String))) : List (List (Option String)) :=
  List.zipWith fixPage dialogs urls ++ urls.drop dialogs.length

/-- BookService._generate_tts_audio: empty dialogs short-circuit to [];
a failed call or an empty/missing paths field yields the all-null shape of
dialogs; otherwise the decoded pages are normalized, padded to the page
count of dialogs, and each page is brought to its expected dialog count. -/
def generate_tts_audio (dialogs : List (List String))
    (resp : Option (List RawTtsPage)) : List (List (Option String)) :=
  if dialogs = [] then []
  else
    match resp with
    | none => dialogs.map (fun page => List.replicate page.length none)
    | some paths =>
      if paths = [] then dialogs.map (fun page => List.replicate page.length none)
      else
        let audio_urls := paths.enum.map (fun e => normalizePage dialogs e.1 e.2)
        fixPages dialogs (padPages dialogs audio_urls)

/-! ## Per-page asset generation (BookService._generate_storybook_page)

The GenAI image and video calls are oracles.  The image step either yields
image parts (which are uploaded under a filename determined by the page
index, returning the uploaded URL), yields no parts (Python returns None,
modelled as the equally falsy empty string), or raises inside its own try
(the source then returns the literal string <image_url>).  The video step
either produces and uploads a video, or fails and returns the empty
string. -/

/-- Outcome of _generate_storybook_page_image's interaction with GenAI. -/
inductive ImageStepResult where
  | parts
  | noParts
  | exn
deriving DecidableEq, Repr

/-- Outcome of _generate_storybook_page_video's interaction with GenAI. -/
inductive VideoStepResult where
  | ok
  | exn
deriving DecidableEq, Repr

/-- The deterministic image filename str(index) + "_" + page_id + ".png"
with page_id = page_{index+1}. -/
def pageImageFilename (index : Nat) : String :=
  toString index ++ "_page_" ++ toString (index + 1) ++ ".png"

/-- The deterministic video filename page_{index+1}.mp4. -/
def pageVideoFilename (index : Nat) : String :=
  "page_" ++ toString (index + 1) ++ ".mp4"

/-- URL returned by _generate_storybook_page_image (empty string for the
Python None of the no-parts branch, the literal placeholder on an inner
exception). -/
def imageStepUrl (book_id : String) (index : Nat) : ImageStepResult → String
  | ImageStepResult.parts =>
    "/data/image/" ++ book_id ++ "/" ++ pageImageFilename index
  | ImageStepResult.noParts => ""
  | ImageStepResult.exn => "<image_url>"

/-- Storage effect of _generate_storybook_page_image: only the parts branch
uploads. -/
def imageStepUpload (book_id : String) (index : Nat) (r : ImageStepResult)
    (st : StorageState) : StorageState :=
  match r with
  | ImageStepResult.parts => uploadAsset st ("image") book_id (pageImageFilename index)
  | _ => st

/-- URL returned by _generate_storybook_page_video (empty string on
failure). -/
def videoStepUrl (book_id : String) (index : Nat) : VideoStepResult → String
  | VideoStepResult.ok =>
    "/data/video/" ++ book_id ++ "/" ++ pageVideoFilename index
  | VideoStepResult.exn => ""

/-- Storage effect of _generate_storybook_page_video. -/
def videoStepUpload (book_id : String) (index : Nat) (r : VideoStepResult)
    (st : StorageState) : StorageState :=
  match r with
  | VideoStepResult.ok => uploadAsset st ("video") book_id (pageVideoFilename index)
  | VideoStepResult.exn => st

/-- Behaviour of one page task: either an exception escapes the try body of
_generate_storybook_page itself (bodyExn — caught there and converted to the
placeholder page), or the two generation steps run with the given
outcomes. -/
inductive PageTaskOracle where
  | bodyExn
  | run (img : ImageStepResult) (vid : VideoStepResult)
deriving DecidableEq, Repr

/-- The Page built by _generate_storybook_page — a video page when the video
URL is truthy, an image page otherwise, and the empty placeholder page when
the body raised (the missing-GenAI-client early return builds this same
placeholder). -/
def generate_storybook_page (book_id : String) (index : Nat)
    (o : PageTaskOracle) : Page :=
  match o with
  | PageTaskOracle.bodyExn =>
    { index := index + 1, type := "image", content := "", fallback_image := ""
      dialogues := [] }
  | PageTaskOracle.run ir vr =>
    let image_url := imageStepUrl book_id index ir
    let video_url := videoStepUrl book_id index vr
    if video_url ≠ "" then
      { index := index + 1, type := "video", content := video_url
        fallback_image := image_url, dialogues := [] }
    else
      { index := index + 1, type := "image", content := image_url
        fallback_image := "", dialogues := [] }

/-- Storage effect of one page task (the bodyExn branch is modelled as
raising before any upload). -/
def pageTaskStorage (book_id : String) (index : Nat) (o : PageTaskOracle)
    (st : StorageState) : StorageState :=
  match o with
  | PageTaskOracle.bodyExn => st
  | PageTaskOracle.run ir vr =>
    videoStepUpload book_id index vr (imageStepUpload book_id index ir st)

/-- The pages gathered from the n per-page tasks, in input order (the story
text and source image of a page flow only into the remote calls, which the
oracle answers, so only the index reaches the Page). -/
def pageResults (book_id : String) (po : Nat → PageTaskOracle) (n : Nat) :
    List Page :=
  (List.range n).map (fun i => generate_storybook_page book_id i (po i))

/-- The storage state after all n page tasks have settled (uploads of
distinct tasks touch distinct keys, so their interleaving is immaterial and
a left fold records them all). -/
def pagesStorage (book_id : String) (po : Nat → PageTaskOracle) (n : Nat)
    (st : StorageState) : StorageState :=
  (List.range n).foldl (fun s i => pageTaskStorage book_id i (po i) s) st

/-! ## Merge step of create_book_with_tts -/

/-- The inner loop of step 4: enumerate zip(story_dialogues, tts_urls) and
append a Dialogue per pair, with 1-based index and the falsy-to-empty audio
coercion. -/
def buildDialogues (start : Nat) : List String → List (Option String) → List Dialogue
  | text :: texts, audio :: audios =>
    { index := start + 1, text := text
      part_audio_url := match audio with | some s => s | none => "" }
      :: buildDialogues (start + 1) texts audios
  | _, _ => []

/-- Step 4 for one page: zip the page's dialogue lines with
(tts_urls if tts_urls else []), which is tts_urls itself. -/
def pageDialogues (story_dialogues : List String)
    (tts_urls : List (Option String)) : List Dialogue :=
  buildDialogues 0 story_dialogues (if tts_urls = [] then [] else tts_urls)

/-- The outer loop of step 4: zip(page_results, stories, tts_results)
truncates at the shortest list and appends the built dialogues to each
zipped page; pages beyond the zip keep their dialogues. -/
def mergeDialogues : List Page → List (List String) → List (List (Option String)) → List Page
  | page :: pages, story :: stories, tts :: ttss =>
    { page with dialogues := page.dialogues ++ pageDialogues story tts }
      :: mergeDialogues pages stories ttss
  | pages, _, _ => pages

/-- Cover selection of step 5: first page's fallback image when it is a
video page with a truthy fallback, else its content, provided the content is
truthy; otherwise the cover stays empty. -/
def coverImage (page_results : List Page) : String :=
  match page_results with
  | [] => ""
  | p :: _ =>
    if p.content ≠ "" then
      if p.type = "video" ∧ p.fallback_image ≠ "" then p.fallback_image
      else p.content
    else ""

/-! ## The orchestrator (BookService.create_book_with_tts) -/

/-- The external world of one create_book_with_tts run: the script
generation result (the list _generate_story_with_ai assigns to stories — on
its own failure it returns one empty list per input, never raises), the raw
TTS response, the per-page task outcomes, whether an otherwise-uncaught
exception escapes the try body between script generation and the success
finalize (mergeExn), and whether the rollback delete itself raises. -/
structure Oracles where
  aiStories : List (List String)
  ttsResp : Option (List RawTtsPage)
  pageTasks : Nat → PageTaskOracle
  mergeExn : Bool
  rollbackFails : Bool

/-- How one run ends: a Book returned normally, or the original exception
propagated to the caller (raised) with the working book's final state and
the storage left after the best-effort rollback. -/
inductive RunResult where
  | ok (book : Book) (storage : StorageState)
  | raised (book : Book) (storage : StorageState)
deriving DecidableEq, Repr

/-- BookService.create_book_with_tts.  The Except layer carries the two
synchronous ValueError rejections; a RunResult.raised value is the
propagated pipeline exception after the except-branch finalization (status
set to error, best-effort delete of the book's directory where a failing
delete is logged and swallowed). -/
def create_book_with_tts (stories : List String) (images : List Unit)
    (book_id : String) (o : Oracles) (st0 : StorageState) :
    Except String RunResult :=
  if stories = [] ∨ images = [] then
    Except.error "At least one page is required"
  else if stories.length ≠ images.length then
    Except.error "Stories and images count mismatch"
  else
    let book0 : Book :=
      { id := book_id, title := "", cover_image := "", status := "process"
        pages := [] }
    let gen := o.aiStories
    if gen.length = 0 then
      Except.ok (RunResult.ok { book0 with status := "error" } st0)
    else
      let tts_results := generate_tts_audio gen o.ttsResp
      let n := (gen.zip images).length
      let page_results := pageResults book_id o.pageTasks n
      let st1 := pagesStorage book_id o.pageTasks n st0
      if o.mergeExn then
        let st2 := if o.rollbackFails then st1 else (delete_book_directory st1 book_id).1
        Except.ok (RunResult.raised { book0 with status := "error" } st2)
      else
        let pages := mergeDialogues page_results gen tts_results
        Except.ok (RunResult.ok
          { book0 with
              pages := pages
              cover_image := coverImage pages
              status := "success" } st1)

/-! ## Concurrency model of the speech engine's admission gate

TtsGenerator is a process singleton: new returns the one stored instance and
init returns early when _initialized is set, so one asyncio.Semaphore exists
per process and every _generate_single of every batch runs its remote call
inside async-with on that same semaphore.  The interleaving of all synthesis
tasks in the process is modelled as a transition system over the multiset of
task phases: a task can be spawned (by any batch), can enter its remote call
only while fewer than K tasks are in flight (the semaphore acquire), and can
finish (the release). -/

/-- Phase of one synthesis task anywhere in the process. -/
inductive TaskPhase where
  | waiting
  | inFlight
  | done
deriving DecidableEq, Repr

/-- How many remote synthesis calls are in flight. -/
def inFlightCount (ts : List TaskPhase) : Nat :=
  ts.countP (fun t => decide (t = TaskPhase.inFlight))

/-- One scheduler step of the process: spawn a task (generate_batch of any
concurrently running batch creating one more _generate_single), admit a
waiting task when the shared semaphore has a free slot, or retire a running
task. -/
inductive SemStep (K : Nat) : List TaskPhase → List TaskPhase → Prop where
  | spawn (ts : List TaskPhase) :
      SemStep K ts (ts ++ [TaskPhase.waiting])
  | acquire (l r : List TaskPhase) :
      inFlightCount (l ++ TaskPhase.waiting :: r) < K →
      SemStep K (l ++ TaskPhase.waiting :: r) (l ++ TaskPhase.inFlight :: r)
  | release (l r : List TaskPhase) :
      SemStep K (l ++ TaskPhase.inFlight :: r) (l ++ TaskPhase.done :: r)

/-- The process states reachable from process start (no tasks). -/
def SemReachable (K : Nat) (ts : List TaskPhase) : Prop :=
  Relation.ReflTransGen (SemStep K) [] ts

/-- The configuration held by the TtsGenerator singleton that matters here:
the admission bound and the identity of its semaphore object. -/
structure TtsGeneratorState where
  max_concurrent : Nat
  semaphoreId : Nat
deriving DecidableEq, Repr

/-- Constructing TtsGenerator(): new returns the stored instance when one
exists and init returns early on _initialized, so the existing state is
returned untouched; only the first construction reads the environment and
allocates a fresh semaphore. -/
def ttsGeneratorInstance (existing : Option TtsGeneratorState)
    (envMaxConcurrent : Option Nat) (freshSemaphore : Nat) :
    TtsGeneratorState :=
  match existing with
  | some g => g
  | none =>
    { max_concurrent := envMaxConcurrent.getD 5, semaphoreId := freshSemaphore }

/-! ## Lemmas about the batch engine -/

theorem splitByStructure_map_length (st : List Nat) :
    ∀ flat : List (Option String), st.sum ≤ flat.length →
      (splitByStructure st flat).map List.length = st := by
  induction st with
  | nil => intro flat _; rfl
  | cons n rest ih =>
    intro flat h
    have hsum : n + rest.sum ≤ flat.length := by
      simpa [List.sum_cons] using h
    have hn : n ≤ flat.length := le_trans (Nat.le_add_right _ _) hsum
    have hrest : rest.sum ≤ (flat.drop n).length := by
      simp only [List.length_drop]
      omega
    simp [splitByStructure, List.length_take, Nat.min_eq_left hn, ih _ hrest]

theorem splitByStructure_flatten (st : List Nat) :
    ∀ flat : List (Option String), st.sum = flat.length →
      (splitByStructure st flat).flatten = flat := by
  induction st with
  | nil =>
    intro flat h
    have hnil : flat = [] := List.eq_nil_of_length_eq_zero (by simpa using h.symm)
    simp [splitByStructure, hnil]
  | cons n rest ih =>
    intro flat h
    have hsum : n + rest.sum = flat.length := by
      simpa [List.sum_cons] using h
    have hrest : rest.sum = (flat.drop n).length := by
      simp only [List.length_drop]; omega
    simp [splitByStructure, ih _ hrest]

theorem length_flattenTexts (texts : List (List String)) :
    (flattenTexts texts).length = (structureOf texts).sum := by
  simp [flattenTexts, structureOf, List.length_flatten]

/-- C1: generate_batch preserves the nested shape of its input — the output
has one sublist per input group, of the same length, whatever the per-item
call results are (failed items occupy their position as null entries: the
flattened output is exactly the settled result sequence, in order). -/
theorem generate_batch_preserves_shape (batch_uuid : String)
    (texts : List (List String)) (callResult : Nat → Option String) :
    (generate_batch batch_uuid texts callResult).batch_id = batch_uuid
    ∧ (generate_batch batch_uuid texts callResult).paths.map List.length
        = texts.map List.length
    ∧ (generate_batch batch_uuid texts callResult).paths.flatten
        = (List.range (flattenTexts texts).length).map callResult := by
  have hlen : (structureOf texts).sum
      = ((List.range (flattenTexts texts).length).map callResult).length := by
    simp [length_flattenTexts]
  refine ⟨rfl, ?_, ?_⟩
  · simpa [generate_batch, structureOf] using
      splitByStructure_map_length (structureOf texts) _ (le_of_eq hlen)
  · simpa [generate_batch] using
      splitByStructure_flatten (structureOf texts) _ hlen

/-- C8: a batch call on the empty nested list succeeds and returns the
generated batch identifier together with the empty paths list. -/
theorem generate_batch_empty (batch_uuid : String)
    (callResult : Nat → Option String) :
    generate_batch batch_uuid [] callResult
      = { batch_id := batch_uuid, paths := [] } := rfl

/-! ## Word TTS theorems -/

theorem validate_word_eq_none (word : String)
    (h : validate_word word = none) :
    ¬ 50 < word.length ∧ isBlankWord word = false
      ∧ hasPathControlChar word = false := by
  unfold validate_word at h
  split at h
  · exact absurd h (by simp)
  next h1 =>
    split at h
    · exact absurd h (by simp)
    next h2 =>
      split at h
      · exact absurd h (by simp)
      next h3 =>
        exact ⟨h1, by simpa using h2, by simpa using h3⟩

/-- C7: every word that is longer than 50 characters, blank, or contains a
path-control character is rejected by the word service with a ValueError
before any synthesis side effect: the result is the invalid outcome and the
world state (files, synthesis-call count) is returned untouched. -/
theorem word_validation_rejects (word : String) (st : WordState)
    (synthOk : Bool) (elapsed : Nat)
    (h : 50 < word.length ∨ isBlankWord word = true
        ∨ hasPathControlChar word = true) :
    ∃ e, service_generate_word st word synthOk elapsed
        = (WordCallResult.invalid e, st) := by
  have hv : ∃ e, validate_word word = some e := by
    unfold validate_word
    by_cases h1 : 50 < word.length
    · exact ⟨ValidationError.tooLong, by simp [h1]⟩
    · by_cases h2 : isBlankWord word
      · exact ⟨ValidationError.emptyWord, by simp [h1, h2]⟩
      · by_cases h3 : hasPathControlChar word
        · exact ⟨ValidationError.pathChar, by simp [h1, h2, h3]⟩
        · rcases h with h | h | h
          · exact absurd h h1
          · exact absurd h (by simpa using h2)
          · exact absurd h (by simpa using h3)
  obtain ⟨e, he⟩ := hv
  exact ⟨e, by simp [service_generate_word, he]⟩

/-- Witness for C7: the traversal attempt ../etc and a 51-character word are
both rejected without touching the state. -/
theorem word_validation_rejects_witness :
    (∃ e, service_generate_word ⟨[], 0⟩ "../etc" true 0
        = (WordCallResult.invalid e, ⟨[], 0⟩))
    ∧ (∃ e, service_generate_word ⟨[], 0⟩
        "aaaaaaaaaaaaaaaaaaaaaaaaaaaaaaaaaaaaaaaaaaaaaaaaaaa" true 0
        = (WordCallResult.invalid e, ⟨[], 0⟩)) :=
  ⟨word_validation_rejects _ _ _ _ (Or.inr (Or.inr (by decide))),
   word_validation_rejects _ _ _ _ (Or.inl (by decide))⟩

/-- C6: for a validated word that is not yet cached, a first successful
synthesizeWord call and an immediately repeated call return the same file
path; the first call reports the elapsed duration and is not cached, the
second is served from the cache (cached, duration absent) and leaves the
state — in particular the synthesis-call count — unchanged. -/
theorem word_cache_idempotent (word : String) (st : WordState)
    (elapsed1 elapsed2 : Nat) (synthOk2 : Bool)
    (hvalid : validate_word word = none)
    (hmiss : word_file_path word ∉ st.files) :
    ∃ r1 r2 st1 st2,
      service_generate_word st word true elapsed1 = (WordCallResult.ok r1, st1)
      ∧ service_generate_word st1 word synthOk2 elapsed2
          = (WordCallResult.ok r2, st2)
      ∧ r2.file_path = r1.file_path
      ∧ r1.cached = false ∧ r1.duration_ms = some elapsed1
      ∧ r2.cached = true ∧ r2.duration_ms = none
      ∧ st2 = st1 := by
  have hhit : word_file_path word ∈ (word_file_path word :: st.files) :=
    List.mem_cons_self _ _
  have h1 : service_generate_word st word true elapsed1
      = (WordCallResult.ok
          { word := word
            file_path := stripLeading ("/app") (word_file_path word)
            cached := false, duration_ms := some elapsed1 },
         ⟨word_file_path word :: st.files, st.synthCount + 1⟩) := by
    simp [service_generate_word, hvalid, tts_generate_word, hmiss]
  have h2 : service_generate_word
        ⟨word_file_path word :: st.files, st.synthCount + 1⟩ word synthOk2 elapsed2
      = (WordCallResult.ok
          { word := word
            file_path := stripLeading ("/app") (word_file_path word)
            cached := true, duration_ms := none },
         ⟨word_file_path word :: st.files, st.synthCount + 1⟩) := by
    simp [service_generate_word, hvalid, tts_generate_word, hhit]
  exact ⟨_, _, _, _, h1, h2, rfl, rfl, rfl, rfl, rfl, rfl⟩

/-- Witness for C6: both calls on the word cat from an empty cache. -/
theorem word_cache_idempotent_witness :
    ∃ r1 r2 st1 st2,
      service_generate_word ⟨[], 0⟩ "cat" true 7 = (WordCallResult.ok r1, st1)
      ∧ service_generate_word st1 "cat" false 3 = (WordCallResult.ok r2, st2)
      ∧ r2.file_path = r1.file_path
      ∧ r1.cached = false ∧ r1.duration_ms = some 7
      ∧ r2.cached = true ∧ r2.duration_ms = none
      ∧ st2 = st1 :=
  word_cache_idempotent "cat" ⟨[], 0⟩ 7 3 false (by decide) (by decide)

/-- The path p names a file strictly inside the directory dir: it is dir
plus a separator plus exactly one component that is nonempty, contains no
separator, and is neither of the traversal components. -/
def strictlyInside (dir p : String) : Prop :=
  ∃ f, p = dir ++ "/" ++ f ∧ f ≠ ""
    ∧ (∀ c ∈ f.data, c ≠ '/') ∧ f ≠ "." ∧ f ≠ ".."

/-- C10: for every word the validator accepts, the per-word cache file path
lies strictly inside the word cache directory (no traversal outside it), and
a successful generator call leaves a file at exactly the path the cache
existence check probes, so the cached read and the write never refer to
different locations. -/
theorem word_cache_path_safe (word : String)
    (hvalid : validate_word word = none) :
    strictlyInside wordDirStr (word_file_path word)
    ∧ (∀ st : WordState,
        word_file_path word ∈ ((tts_generate_word st word true).2).files) := by
  obtain ⟨-, hblank, hchars⟩ := validate_word_eq_none word hvalid
  have hnochar : ∀ c ∈ word.data, ¬ c ∈ pathControlChars := by
    intro c hc
    have := congrArg (fun b => b = false) (rfl : hasPathControlChar word = hasPathControlChar word)
    simp only [hasPathControlChar, List.any_eq_true, not_exists] at hchars
    intro hmem
    have : word.data.any (fun c => decide (c ∈ pathControlChars)) = true :=
      List.any_eq_true.mpr ⟨c, hc, by simpa using hmem⟩
    simp [hasPathControlChar] at hchars
    exact absurd (hchars c hc) (by simpa using hmem)
  have hne : word.data ≠ [] := by
    intro hnil
    have : isBlankWord word = true := by simp [isBlankWord, hnil]
    simp [this] at hblank
  have hdata : (word ++ (".mp3")).data = word.data ++ ('.' :: 'm' :: 'p' :: '3' :: []) := by
    rw [String.data_append]
  constructor
  · refine ⟨word ++ (".mp3"), ?_, ?_, ?_, ?_, ?_⟩
    · obtain ⟨c, cs, hcons⟩ := List.exists_cons_of_ne_nil hne
      have hc : c ∈ word.data := by simp [hcons]
      have hcslash : c ≠ '/' := by
        intro heq
        exact hnochar c hc (by simp [pathControlChars, heq])
      have hhead : (word ++ (".mp3")).data.head? = some c := by
        rw [hdata, hcons]; rfl
      unfold word_file_path posixJoin
      rw [hhead]
      simp [hcslash]
    · intro hf
      have : (word ++ (".mp3")).data = [] := by simp [hf]
      rw [hdata] at this
      exact absurd this (by simp)
    · intro c hc
      rw [hdata] at hc
      rcases List.mem_append.mp hc with hc | hc
      · intro heq
        exact hnochar c hc (by simp [pathControlChars, heq])
      · intro heq
        subst heq
        simp at hc
    · intro hf
      have := congrArg String.data hf
      rw [hdata] at this
      have hlen := congrArg List.length this
      simp at hlen
    · intro hf
      have := congrArg String.data hf
      rw [hdata] at this
      have hlen := congrArg List.length this
      simp at hlen
  · intro st
    by_cases hmem : word_file_path word ∈ st.files
    · simp [tts_generate_word, hmem]
    · simp [tts_generate_word, hmem]

/-- Witness for C10: the word cat. -/
theorem word_cache_path_safe_witness :
    strictlyInside wordDirStr (word_file_path "cat")
    ∧ (∀ st : WordState,
        word_file_path "cat" ∈ ((tts_generate_word st "cat" true).2).files) :=
  word_cache_path_safe "cat" (by decide)

/-! ## Lemmas about the orchestrator's building blocks -/

theorem length_fixPage (expected : List String) (actual : List (Option String)) :
    (fixPage expected actual).length = expected.length := by
  unfold fixPage
  split
  next h => simp; omega
  next h => simp; omega

theorem fixPages_cons (d : List String) (ds : List (List String))
    (u : List (Option String)) (us : List (List (Option String))) :
    fixPages (d :: ds) (u :: us) = fixPage d u :: fixPages ds us := by
  simp [fixPages]

theorem fixPages_getElem (dialogs : List (List String)) :
    ∀ (urls : List (List (Option String))) (k : Nat) (s : List String),
      dialogs.length ≤ urls.length → dialogs[k]? = some s →
      ∃ t, (fixPages dialogs urls)[k]? = some t ∧ t.length = s.length := by
  induction dialogs with
  | nil => intro urls k s _ h; simp at h
  | cons d ds ih =>
    intro urls k s hle h
    cases urls with
    | nil => simp at hle
    | cons u us =>
      rw [fixPages_cons]
      cases k with
      | zero =>
        simp only [List.getElem?_cons_zero, Option.some.injEq] at h
        subst h
        exact ⟨fixPage d u, by simp, length_fixPage d u⟩
      | succ k =>
        simp only [List.getElem?_cons_succ] at h
        have hle' : ds.length ≤ us.length := by simpa using hle
        obtain ⟨t, ht, hlen⟩ := ih us k s hle' h
        exact ⟨t, by simpa using ht, hlen⟩

theorem length_padPages (dialogs : List (List String))
    (urls : List (List (Option String))) :
    dialogs.length ≤ (padPages dialogs urls).length := by
  simp [padPages]
  omega

theorem generate_tts_audio_length (dialogs : List (List String))
    (resp : Option (List RawTtsPage)) (k : Nat) (s : List String)
    (h : dialogs[k]? = some s) :
    ∃ t, (generate_tts_audio dialogs resp)[k]? = some t
      ∧ t.length = s.length := by
  have hne : ¬ dialogs = [] := by intro hd; subst hd; simp at h
  cases resp with
  | none =>
    refine ⟨List.replicate s.length none, ?_, by simp⟩
    simp [generate_tts_audio, hne, List.getElem?_map, h]
  | some paths =>
    by_cases hp : paths = []
    · subst hp
      refine ⟨List.replicate s.length none, ?_, by simp⟩
      simp [generate_tts_audio, hne, List.getElem?_map, h]
    · obtain ⟨t, ht, hlen⟩ := fixPages_getElem dialogs
        (padPages dialogs (paths.enum.map (fun e => normalizePage dialogs e.1 e.2)))
        k s (length_padPages dialogs _) h
      refine ⟨t, ?_, hlen⟩
      simpa [generate_tts_audio, hne, hp] using ht

theorem buildDialogues_spec (s : List String) :
    ∀ (t : List (Option String)) (start : Nat), t.length = s.length →
      (buildDialogues start s t).length = s.length
      ∧ (buildDialogues start s t).map Dialogue.text = s
      ∧ (buildDialogues start s t).map Dialogue.index
          = List.range' (start + 1) s.length := by
  induction s with
  | nil =>
    intro t start h
    have ht : t = [] := List.eq_nil_of_length_eq_zero (by simpa using h)
    subst ht
    exact ⟨rfl, rfl, rfl⟩
  | cons x xs ih =>
    intro t start h
    cases t with
    | nil => simp at h
    | cons a as1 =>
      have h1 : as1.length = xs.length := by simpa using h
      obtain ⟨hl, ht, hi⟩ := ih as1 (start + 1) h1
      refine ⟨by simp [buildDialogues, hl], by simp [buildDialogues, ht], ?_⟩
      simp [buildDialogues, hi, List.range'_succ]

theorem pageDialogues_spec (s : List String) (t : List (Option String))
    (h : t.length = s.length) :
    (pageDialogues s t).length = s.length
    ∧ (pageDialogues s t).map Dialogue.text = s
    ∧ (pageDialogues s t).map Dialogue.index = List.range' 1 s.length := by
  unfold pageDialogues
  by_cases ht : t = []
  · have hs : s = [] := List.eq_nil_of_length_eq_zero (by rw [← h, ht]; rfl)
    subst hs; subst ht
    exact ⟨rfl, rfl, rfl⟩
  · rw [if_neg ht]
    exact buildDialogues_spec s t 0 h

theorem length_mergeDialogues (pages : List Page) :
    ∀ (stories : List (List String)) (tts : List (List (Option String))),
      (mergeDialogues pages stories tts).length = pages.length := by
  induction pages with
  | nil => intro stories tts; cases stories <;> cases tts <;> rfl
  | cons p ps ih =>
    intro stories tts
    cases stories with
    | nil => rfl
    | cons s ss =>
      cases tts with
      | nil => rfl
      | cons t ts => simp [mergeDialogues, ih]

theorem mergeDialogues_getElem (pages : List Page) :
    ∀ (stories : List (List String)) (tts : List (List (Option String)))
      (k : Nat) (p : Page) (s : List String) (t : List (Option String)),
      pages[k]? = some p → stories[k]? = some s → tts[k]? = some t →
      (mergeDialogues pages stories tts)[k]?
        = some { p with dialogues := p.dialogues ++ pageDialogues s t } := by
  induction pages with
  | nil => intro stories tts k p s t hp; simp at hp
  | cons q qs ih =>
    intro stories tts k p s t hp hs ht
    cases stories with
    | nil => simp at hs
    | cons s0 ss =>
      cases tts with
      | nil => simp at ht
      | cons t0 ts =>
        cases k with
        | zero =>
          simp only [List.getElem?_cons_zero, Option.some.injEq] at hp hs ht
          subst hp; subst hs; subst ht
          simp [mergeDialogues]
        | succ k =>
          simp only [List.getElem?_cons_succ] at hp hs ht
          simpa [mergeDialogues] using ih ss ts k p s t hp hs ht

theorem pageResults_length (book_id : String) (po : Nat → PageTaskOracle)
    (n : Nat) : (pageResults book_id po n).length = n := by
  simp [pageResults]

theorem pageResults_getElem (book_id : String) (po : Nat → PageTaskOracle)
    (n k : Nat) (h : k < n) :
    (pageResults book_id po n)[k]?
      = some (generate_storybook_page book_id k (po k)) := by
  simp [pageResults, List.getElem?_map, List.getElem?_range, h]

theorem generate_storybook_page_dialogues (book_id : String) (k : Nat)
    (o : PageTaskOracle) :
    (generate_storybook_page book_id k o).dialogues = [] := by
  cases o with
  | bodyExn => rfl
  | run ir vr =>
    simp only [generate_storybook_page]
    split <;> rfl

theorem create_book_success_shape (stories : List String) (images : List Unit)
    (book_id : String) (o : Oracles) (st0 : StorageState)
    (hs : stories ≠ []) (hi : images ≠ [])
    (hlen : stories.length = images.length)
    (hgen : o.aiStories ≠ []) (hmerge : o.mergeExn = false) :
    create_book_with_tts stories images book_id o st0
      = Except.ok (RunResult.ok
          { id := book_id, title := ""
            cover_image := coverImage (mergeDialogues
              (pageResults book_id o.pageTasks ((o.aiStories.zip images).length))
              o.aiStories (generate_tts_audio o.aiStories o.ttsResp))
            status := "success"
            pages := mergeDialogues
              (pageResults book_id o.pageTasks ((o.aiStories.zip images).length))
              o.aiStories (generate_tts_audio o.aiStories o.ttsResp) }
          (pagesStorage book_id o.pageTasks ((o.aiStories.zip images).length) st0)) := by
  simp only [create_book_with_tts]
  rw [if_neg (by simp [hs, hi]), if_neg (by simp [hlen]),
    if_neg (by simp [List.length_eq_zero, hgen]), if_neg (by simp [hmerge])]

theorem create_book_raised_shape (stories : List String) (images : List Unit)
    (book_id : String) (o : Oracles) (st0 : StorageState)
    (hs : stories ≠ []) (hi : images ≠ [])
    (hlen : stories.length = images.length)
    (hgen : o.aiStories ≠ []) (hmerge : o.mergeExn = true) :
    create_book_with_tts stories images book_id o st0
      = Except.ok (RunResult.raised
          { id := book_id, title := "", cover_image := "", status := "error"
            pages := [] }
          (if o.rollbackFails then
            pagesStorage book_id o.pageTasks ((o.aiStories.zip images).length) st0
          else
            (delete_book_directory
              (pagesStorage book_id o.pageTasks ((o.aiStories.zip images).length) st0)
              book_id).1)) := by
  simp only [create_book_with_tts]
  rw [if_neg (by simp [hs, hi]), if_neg (by simp [hlen]),
    if_neg (by simp [List.length_eq_zero, hgen]), if_pos (by simp [hmerge])]

theorem create_book_no_stories_shape (stories : List String) (images : List Unit)
    (book_id : String) (o : Oracles) (st0 : StorageState)
    (hs : stories ≠ []) (hi : images ≠ [])
    (hlen : stories.length = images.length)
    (hgen : o.aiStories = []) :
    create_book_with_tts stories images book_id o st0
      = Except.ok (RunResult.ok
          { id := book_id, title := "", cover_image := "", status := "error"
            pages := [] } st0) := by
  simp only [create_book_with_tts]
  rw [if_neg (by simp [hs, hi]), if_neg (by simp [hlen]),
    if_pos (by simp [hgen])]

/-! ## Orchestrator claim theorems -/

/-- C2: on valid input (both lists nonempty and of equal length) every Book
that createWithGeneration returns carries a terminal status, success or
error; the initial process status never escapes. -/
theorem create_book_status_terminal (stories : List String) (images : List Unit)
    (book_id : String) (o : Oracles) (st0 : StorageState) (b : Book)
    (stf : StorageState)
    (hs : stories ≠ []) (hi : images ≠ [])
    (hlen : stories.length = images.length)
    (hret : create_book_with_tts stories images book_id o st0
        = Except.ok (RunResult.ok b stf)) :
    b.status = "success" ∨ b.status = "error" := by
  by_cases hgen : o.aiStories = []
  · rw [create_book_no_stories_shape stories images book_id o st0 hs hi hlen hgen]
      at hret
    injection hret with h1
    injection h1 with h2 h3
    right; rw [← h2]
  · by_cases hmerge : o.mergeExn
    · rw [create_book_raised_shape stories images book_id o st0 hs hi hlen hgen
        hmerge] at hret
      injection hret with h1
      injection h1
    · rw [create_book_success_shape stories images book_id o st0 hs hi hlen hgen
        (by simpa using hmerge)] at hret
      injection hret with h1
      injection h1 with h2 h3
      left; rw [← h2]

/-- Witness for C2: a run whose script stage yields nothing returns the
error-status book. -/
theorem create_book_status_terminal_witness :
    (Book.mk "b1" "" "" "error" []).status = "success"
    ∨ (Book.mk "b1" "" "" "error" []).status = "error" :=
  create_book_status_terminal ["once"] [()] "b1"
    ⟨[], none, fun _ => PageTaskOracle.bodyExn, false, false⟩
    ⟨[], []⟩ _ ⟨[], []⟩ (by decide) (by decide) (by decide) rfl

/-- C3: when the script stage yields one dialogue list per input page and
some page task k throws, the returned Book still finalizes as success with
one page per input page, and page k is the absorbed placeholder: empty
content, modality image, its 1-based index preserved. -/
theorem page_failure_isolated (stories : List String) (images : List Unit)
    (book_id : String) (o : Oracles) (st0 : StorageState) (k : Nat)
    (hs : stories ≠ []) (hi : images ≠ [])
    (hlen : stories.length = images.length)
    (hgenlen : o.aiStories.length = stories.length)
    (hmerge : o.mergeExn = false)
    (hk : k < stories.length)
    (hexn : o.pageTasks k = PageTaskOracle.bodyExn) :
    ∃ b stf,
      create_book_with_tts stories images book_id o st0
        = Except.ok (RunResult.ok b stf)
      ∧ b.status = "success"
      ∧ b.pages.length = stories.length
      ∧ ∃ p, b.pages[k]? = some p ∧ p.content = "" ∧ p.type = "image"
          ∧ p.index = k + 1 := by
  have hgen : o.aiStories ≠ [] := by
    intro h
    rw [h] at hgenlen
    exact hs (List.eq_nil_of_length_eq_zero (by simpa using hgenlen.symm))
  have hn : (o.aiStories.zip images).length = stories.length := by
    simp [List.length_zip, hgenlen, ← hlen]
  refine ⟨_, _, create_book_success_shape stories images book_id o st0 hs hi hlen
    hgen hmerge, rfl, ?_, ?_⟩
  · rw [length_mergeDialogues, pageResults_length, hn]
  · have hkgen : k < o.aiStories.length := by omega
    obtain ⟨s, hsk⟩ : ∃ s, o.aiStories[k]? = some s :=
      ⟨_, List.getElem?_eq_getElem hkgen⟩
    obtain ⟨t, htk, -⟩ := generate_tts_audio_length o.aiStories o.ttsResp k s hsk
    have hpk := pageResults_getElem book_id o.pageTasks
      ((o.aiStories.zip images).length) k (by omega)
    rw [hexn] at hpk
    refine ⟨_, mergeDialogues_getElem _ _ _ k _ s t hpk hsk htk, rfl, rfl, rfl⟩

/-- Witness for C3: a one-page run whose single page task throws. -/
theorem page_failure_isolated_witness :
    ∃ b stf,
      create_book_with_tts ["once"] [()] "b1"
          ⟨[["hi"]], none, fun _ => PageTaskOracle.bodyExn, false, false⟩
          ⟨[], []⟩
        = Except.ok (RunResult.ok b stf)
      ∧ b.status = "success"
      ∧ b.pages.length = ("once" :: []).length
      ∧ ∃ p, b.pages[0]? = some p ∧ p.content = "" ∧ p.type = "image"
          ∧ p.index = 0 + 1 :=
  page_failure_isolated ["once"] [()] "b1" _ ⟨[], []⟩ 0 (by decide) (by decide)
    (by decide) (by decide) (by decide) (by decide) (by decide)

theorem create_book_ok_valid (stories : List String) (images : List Unit)
    (book_id : String) (o : Oracles) (st0 : StorageState) (r : RunResult)
    (hret : create_book_with_tts stories images book_id o st0 = Except.ok r) :
    stories ≠ [] ∧ images ≠ [] ∧ stories.length = images.length := by
  simp only [create_book_with_tts] at hret
  by_cases h1 : stories = [] ∨ images = []
  · rw [if_pos h1] at hret
    exact absurd hret (by simp)
  · rw [if_neg h1] at hret
    by_cases h2 : stories.length ≠ images.length
    · rw [if_pos h2] at hret
      exact absurd hret (by simp)
    · push_neg at h1 h2
      exact ⟨h1.1, h1.2, h2⟩

/-- C5: in every Book that createWithGeneration returns, page k holds
exactly the dialogue lines the script stage produced for page k, in order,
with 1-based dialogue indices — whatever the raw TTS response looked like
(missing, short or long results never drop or reorder lines). -/
theorem merge_preserves_dialogues (stories : List String) (images : List Unit)
    (book_id : String) (o : Oracles) (st0 : StorageState) (b : Book)
    (stf : StorageState)
    (hret : create_book_with_tts stories images book_id o st0
        = Except.ok (RunResult.ok b stf)) :
    ∀ k, k < b.pages.length →
      ∃ p s, b.pages[k]? = some p ∧ o.aiStories[k]? = some s
        ∧ p.dialogues.length = s.length
        ∧ p.dialogues.map Dialogue.text = s
        ∧ p.dialogues.map Dialogue.index = List.range' 1 s.length := by
  intro k hk
  obtain ⟨hs, hi, hlen⟩ :=
    create_book_ok_valid stories images book_id o st0 _ hret
  by_cases hgen : o.aiStories = []
  · rw [create_book_no_stories_shape stories images book_id o st0 hs hi hlen
      hgen] at hret
    injection hret with h1
    injection h1 with h2 h3
    rw [← h2] at hk
    simp at hk
  · by_cases hmerge : o.mergeExn
    · rw [create_book_raised_shape stories images book_id o st0 hs hi hlen hgen
        hmerge] at hret
      injection hret with h1
      injection h1
    · rw [create_book_success_shape stories images book_id o st0 hs hi hlen hgen
        (by simpa using hmerge)] at hret
      injection hret with h1
      injection h1 with h2 h3
      rw [← h2] at hk ⊢
      dsimp only at hk ⊢
      rw [length_mergeDialogues, pageResults_length] at hk
      have hkgen : k < o.aiStories.length := by
        have hz : (o.aiStories.zip images).length
            = min o.aiStories.length images.length := by simp
        omega
      obtain ⟨s, hsk⟩ : ∃ s, o.aiStories[k]? = some s :=
        ⟨_, List.getElem?_eq_getElem hkgen⟩
      obtain ⟨t, htk, htlen⟩ :=
        generate_tts_audio_length o.aiStories o.ttsResp k s hsk
      have hpk := pageResults_getElem book_id o.pageTasks
        ((o.aiStories.zip images).length) k hk
      obtain ⟨hdl, hdt, hdi⟩ := pageDialogues_spec s t htlen
      refine ⟨_, s, mergeDialogues_getElem _ _ _ k _ s t hpk hsk htk, hsk,
        ?_, ?_, ?_⟩
      · simp [generate_storybook_page_dialogues, hdl]
      · simp [generate_storybook_page_dialogues, hdt]
      · simp [generate_storybook_page_dialogues, hdi]

/-- Witness for C5: the single page of a one-page run carries exactly the
one generated dialogue line. -/
theorem merge_preserves_dialogues_witness :
    ∃ p s,
      (Book.mk "b1" "" "" "success"
        [Page.mk 1 "image" "" "" [Dialogue.mk 1 "hi" ""]]).pages[0]? = some p
      ∧ (Oracles.mk [["hi"]] none (fun _ => PageTaskOracle.bodyExn) false
          false).aiStories[0]? = some s
      ∧ p.dialogues.length = s.length
      ∧ p.dialogues.map Dialogue.text = s
      ∧ p.dialogues.map Dialogue.index = List.range' 1 s.length :=
  merge_preserves_dialogues ["once"] [()] "b1"
    ⟨[["hi"]], none, fun _ => PageTaskOracle.bodyExn, false, false⟩ ⟨[], []⟩
    (Book.mk "b1" "" "" "success"
      [Page.mk 1 "image" "" "" [Dialogue.mk 1 "hi" ""]])
    ⟨[], []⟩ rfl 0 (by decide)

/-! ## Failure path of the orchestrator (claim C4) -/

theorem delete_book_directory_clears (st : StorageState)
    (book_id filename : String) :
    file_exists (delete_book_directory st book_id).1 ("image") book_id filename
      = false := by
  unfold delete_book_directory
  split
  next h =>
    simp [file_exists, List.mem_filter]
  next h =>
    simp only [List.any_eq_true, decide_eq_true_eq, not_exists] at h
    have hmem : (book_id, filename) ∉ st.images := fun hm => h _ ⟨hm, rfl⟩
    simp [file_exists, hmem]

theorem delete_book_directory_videos (st : StorageState) (book_id : String) :
    ((delete_book_directory st book_id).1).videos = st.videos := by
  unfold delete_book_directory
  split <;> rfl

/-- Oracle of the run refuting the all-assets-deleted reading of the
rollback: the single page task uploads an image and a video, then the merge
step throws. -/
def rollbackOracle : Oracles :=
  ⟨[["line"]], none,
   fun _ => PageTaskOracle.run ImageStepResult.parts VideoStepResult.ok,
   true, false⟩

/-- Counterexample to C4: in a run where one page uploaded an image and a
video before the merge step threw, the working book is finalized as error
and the exception propagates, yet the existence check for the uploaded video
asset of this book id still returns true afterwards — the rollback removes
only the image subtree, so not every asset check under the book id turns
false as the claim states. -/
theorem rollback_leaves_video_assets :
    create_book_with_tts ["story"] [()] "book1" rollbackOracle ⟨[], []⟩
      = Except.ok (RunResult.raised (Book.mk "book1" "" "" "error" [])
          ⟨[], [("book1", "page_1.mp4")]⟩)
    ∧ file_exists ⟨[], [("book1", "page_1.mp4")]⟩ ("video") ("book1")
        ("page_1.mp4") = true := by
  constructor
  · rfl
  · decide

/-- C4 as amended: when an uncaught exception escapes between script
generation and the success finalize, the working book's status is set to
error and the original exception is propagated (the raised outcome below),
the rollback deletes the book's image subtree best-effort — after a
successful rollback delete, an existence check for any image asset under the
book id returns false — while video assets under the book id are left in
place, and a failure of the rollback delete is swallowed: the run still
ends by propagating the original exception, never the rollback's. -/
theorem error_rollback_behavior (stories : List String) (images : List Unit)
    (book_id : String) (o : Oracles) (st0 : StorageState)
    (hs : stories ≠ []) (hi : images ≠ [])
    (hlen : stories.length = images.length)
    (hgen : o.aiStories ≠ []) (hmerge : o.mergeExn = true) :
    ∃ b stf,
      create_book_with_tts stories images book_id o st0
        = Except.ok (RunResult.raised b stf)
      ∧ b.status = "error"
      ∧ (o.rollbackFails = false →
          ∀ filename, file_exists stf ("image") book_id filename = false)
      ∧ stf.videos = (pagesStorage book_id o.pageTasks
          ((o.aiStories.zip images).length) st0).videos := by
  refine ⟨_, _, create_book_raised_shape stories images book_id o st0 hs hi hlen
    hgen hmerge, rfl, ?_, ?_⟩
  · intro hrb filename
    rw [if_neg (by simp [hrb])]
    exact delete_book_directory_clears _ book_id filename
  · by_cases hrb : o.rollbackFails
    · rw [if_pos (by simp [hrb])]
    · rw [if_neg (by simp [hrb])]
      exact delete_book_directory_videos _ book_id

/-- Witness for the amended C4: the concrete refutation run. -/
theorem error_rollback_behavior_witness :
    ∃ b stf,
      create_book_with_tts ["story"] [()] "book1" rollbackOracle ⟨[], []⟩
        = Except.ok (RunResult.raised b stf)
      ∧ b.status = "error"
      ∧ (rollbackOracle.rollbackFails = false →
          ∀ filename, file_exists stf ("image") ("book1") filename = false)
      ∧ stf.videos = (pagesStorage ("book1") rollbackOracle.pageTasks
          ((rollbackOracle.aiStories.zip [()]).length) ⟨[], []⟩).videos :=
  error_rollback_behavior ["story"] [()] "book1" rollbackOracle ⟨[], []⟩
    (by decide) (by decide) (by decide) (by decide) (by decide)

/-! ## Admission gate theorems (claim C9) -/

theorem inFlightCount_append (l r : List TaskPhase) :
    inFlightCount (l ++ r) = inFlightCount l + inFlightCount r := by
  simp [inFlightCount, List.countP_append]

/-- C9: the semaphore bound holds at every reachable interleaving — at most
K remote synthesis calls are in flight at any moment, across all batches of
the process — because the gate is one per process: re-running the
TtsGenerator constructor returns the already-initialized singleton with its
existing semaphore, and the bound defaults to 5 when the environment leaves
it unset. -/
theorem admission_gate_bound :
    (∀ (K : Nat) (ts : List TaskPhase), SemReachable K ts →
      inFlightCount ts ≤ K)
    ∧ (∀ (g : TtsGeneratorState) (envK : Option Nat) (fresh : Nat),
        ttsGeneratorInstance (some g) envK fresh = g)
    ∧ (∀ fresh : Nat,
        (ttsGeneratorInstance none none fresh).max_concurrent = 5) := by
  refine ⟨?_, fun g envK fresh => rfl, fun fresh => rfl⟩
  intro K ts h
  induction h with
  | refl => simp [inFlightCount]
  | tail hsteps hstep ih =>
    cases hstep with
    | spawn ts1 =>
      simpa [inFlightCount_append, inFlightCount] using ih
    | acquire l r hlt =>
      rw [inFlightCount_append] at hlt ih ⊢
      simp only [inFlightCount, List.countP_cons] at hlt ih ⊢
      simp at hlt ih ⊢
      omega
    | release l r =>
      rw [inFlightCount_append] at ih ⊢
      simp only [inFlightCount, List.countP_cons] at ih ⊢
      simp at ih ⊢
      omega

/-- Witness for C9: a three-step schedule of one task under K = 1, plus the
singleton and default-bound facts at concrete values. -/
theorem admission_gate_bound_witness :
    inFlightCount [TaskPhase.done] ≤ 1
    ∧ ttsGeneratorInstance (some ⟨5, 0⟩) (some 9) 1 = ⟨5, 0⟩
    ∧ (ttsGeneratorInstance none none 0).max_concurrent = 5 := by
  refine ⟨admission_gate_bound.1 1 [TaskPhase.done] ?_,
    admission_gate_bound.2.1 ⟨5, 0⟩ (some 9) 1,
    admission_gate_bound.2.2 0⟩
  have s1 : SemStep 1 [] [TaskPhase.waiting] := SemStep.spawn []
  have s2 : SemStep 1 [TaskPhase.waiting] [TaskPhase.inFlight] :=
    SemStep.acquire [] [] (by decide)
  have s3 : SemStep 1 [TaskPhase.inFlight] [TaskPhase.done] :=
    SemStep.release [] []
  exact Relation.ReflTransGen.tail
    (Relation.ReflTransGen.tail
      (Relation.ReflTransGen.tail Relation.ReflTransGen.refl s1) s2) s3

end MoriAI
